import Mathlib

/-!
Verification of the metric-derivation engine of the ndphc-backend repository.

The embedding models the data tables of `app/models/*.py` as Lean structures
(nullable `Numeric` columns become `Option ℚ`, non-nullable ones `ℚ`; decimal
arithmetic is modelled exactly over `ℚ`), and the two calculation-service
variants:

* `CalculationService` — `app/services/calculation_service.py`, the variant
  imported and invoked by every API endpoint
  (`daily_reports.py`, `hourly_readings.py`, `dashboard.py`);
* `CalculationServiceEndpoints` — `app/api/v1/endpoints/calculations.py`, a
  second variant that is wired into no router and imported by no module.
  It reads two attributes that the models do not define
  (`TurbineHourlyGeneration.energy_exported`, `PowerPlant.installed_capacity`),
  which would raise `AttributeError` at runtime; those accesses are modelled
  as `Except.error`.

Authentication, submission-deadline logic and audit columns
(`last_modified_by_id`, `updated_at`, `is_late_submission`) are real-time /
identity concerns orthogonal to the data flow that the claims are about; they
are elided from the endpoint embeddings.
-/

namespace NDPHC

/-- Python truthiness of a nullable numeric column value: `None` and `0` are
falsy, everything else truthy.  `Option.getD 0` collapses exactly the falsy
values to `0`. -/
def truthy (v : Option ℚ) : Prop := v.getD 0 ≠ 0

instance (v : Option ℚ) : Decidable (truthy v) :=
  inferInstanceAs (Decidable (v.getD 0 ≠ 0))

/-- Model of `models/power_plant.py` — `total_capacity` is `nullable=False`. -/
structure PowerPlant where
  id : ℕ
  total_capacity : ℚ
deriving DecidableEq

/-- Model of `models/turbine.py` — identity and plant membership only. -/
structure Turbine where
  id : ℕ
  power_plant_id : ℕ
deriving DecidableEq

/-- Model of `models/morning_reading.py` — both declaration columns are
`nullable=False`. -/
structure MorningReading where
  date : ℕ
  power_plant_id : ℕ
  declaration_total : ℚ
  availability_capacity : ℚ
deriving DecidableEq

/-- Model of `models/daily_report.py` `TurbineDailyStats`: all numeric columns
`nullable=False`. -/
structure TurbineDailyStats where
  daily_report_id : ℕ
  turbine_id : ℕ
  energy_generated : ℚ
  energy_exported : ℚ
  operating_hours : ℚ
  startup_count : ℕ
  shutdown_count : ℕ
  trips : ℕ
deriving DecidableEq

/-- Model of `models/daily_report.py` `TurbineHourlyGeneration` carries ONLY
`energy_generated` (the `energy_exported` column has been removed, as the
comments in `endpoints/hourly_readings.py` note). -/
structure TurbineHourlyGeneration where
  daily_report_id : ℕ
  turbine_id : ℕ
  hour : ℕ
  energy_generated : ℚ
deriving DecidableEq

/-- Model of `models/daily_report.py` `DailyReport`.  Raw inputs `gas_loss`,
`ncc_loss`, `internal_loss`, `gas_consumed` are `nullable=False`;
`declaration_total`, `availability_capacity` and all eleven derived fields
are `nullable=True`. -/
@[ext]
structure DailyReport where
  id : ℕ
  date : ℕ
  power_plant_id : ℕ
  gas_loss : ℚ
  ncc_loss : ℚ
  internal_loss : ℚ
  gas_consumed : ℚ
  declaration_total : Option ℚ
  availability_capacity : Option ℚ
  availability_factor : Option ℚ
  plant_heat_rate : Option ℚ
  thermal_efficiency : Option ℚ
  energy_generated : Option ℚ
  total_energy_exported : Option ℚ
  energy_consumed : Option ℚ
  availability_forecast : Option ℚ
  dependability_index : Option ℚ
  avg_energy_sent_out : Option ℚ
  gas_utilization : Option ℚ
  load_factor : Option ℚ
deriving DecidableEq

/-- The database state visible to the services: one list per table. -/
structure Db where
  plants : List PowerPlant
  turbines : List Turbine
  reports : List DailyReport
  morning_readings : List MorningReading
  turbine_stats : List TurbineDailyStats
  hourly_records : List TurbineHourlyGeneration
deriving DecidableEq

/-- Python `sum(f(row) for row in rows)` with Python's empty-sum default `0`
(also the `scalar() or 0` default of an aggregate over no rows). -/
def sumBy {α : Type} (l : List α) (f : α → ℚ) : ℚ := (l.map f).sum

namespace CalculationService

/-- Model of `calculation_service.py:62-66` — `if not report.field and morning_reading:
report.field = morning_reading.field`.  The morning value is copied onto the
report whenever the report's own value is falsy (null or zero) and a morning
reading exists. -/
def copyFromMorning (morningVal : Option ℚ) (v : Option ℚ) : Option ℚ :=
  if ¬ truthy v then
    match morningVal with
    | some m => some m
    | none => v
  else v

/-- Model of `app/services/calculation_service.py:50-102`, the body of
`calculate_and_update_all_metrics` after the report, plant, morning reading
and turbine stats have been fetched.  Each assignment mirrors the source
statement; a field guarded by an `if` that fails keeps its previous value.
(`total_operating_hours` at line 90 is computed by the source and never
used; it is omitted.) -/
def calcServiceUpdate (plant : PowerPlant) (morning : Option MorningReading)
    (stats : List TurbineDailyStats) (r : DailyReport) : DailyReport :=
  let totalGen := sumBy stats (·.energy_generated)
  let totalExp := sumBy stats (·.energy_exported)
  let decl := copyFromMorning (morning.map (·.declaration_total)) r.declaration_total
  let ac := copyFromMorning (morning.map (·.availability_capacity)) r.availability_capacity
  let forecast := if truthy decl then some (decl.getD 0 * 24) else r.availability_forecast
  let gu := if r.gas_consumed > 0 then some (totalGen / r.gas_consumed) else r.gas_utilization
  let heat := if truthy gu ∧ gu.getD 0 > 0 then some ((43.65 * 1000 * 24 : ℚ) / gu.getD 0)
              else r.plant_heat_rate
  { r with
    energy_generated := some totalGen
    total_energy_exported := some totalExp
    energy_consumed := some (totalGen - totalExp)
    declaration_total := decl
    availability_capacity := ac
    availability_factor :=
      if truthy ac ∧ plant.total_capacity > 0 then
        some (ac.getD 0 / plant.total_capacity * 100)
      else r.availability_factor
    availability_forecast := forecast
    dependability_index :=
      if truthy forecast ∧ forecast.getD 0 > 0 then
        some (totalGen / forecast.getD 0 * 100)
      else r.dependability_index
    avg_energy_sent_out := some (totalExp / 24)
    gas_utilization := gu
    plant_heat_rate := heat
    thermal_efficiency :=
      if truthy heat ∧ heat.getD 0 > 0 then some (3600 / heat.getD 0 * 100)
      else r.thermal_efficiency
    load_factor :=
      if plant.total_capacity ≠ 0 ∧ totalGen ≠ 0 then
        some (totalGen / 24 / plant.total_capacity * 100)
      else r.load_factor }

/-- Model of `app/services/calculation_service.py:20-106` —
`CalculationService.calculate_and_update_all_metrics`: resolve the report and
its plant (`first()` on each filter; a failed lookup is a no-op), fetch the
morning reading for the same plant and date and the report's turbine stats,
then write the recomputed report back. -/
def calculate_and_update_all_metrics (db : Db) (rid : ℕ) : Db :=
  match db.reports.find? (fun r => r.id == rid) with
  | none => db
  | some report =>
    match db.plants.find? (fun p => p.id == report.power_plant_id) with
    | none => db
    | some plant =>
      let morning := db.morning_readings.find?
        (fun m => m.date == report.date && m.power_plant_id == report.power_plant_id)
      let stats := db.turbine_stats.filter (fun s => s.daily_report_id == rid)
      let r' := calcServiceUpdate plant morning stats report
      { db with reports := db.reports.map (fun x => if x.id == rid then r' else x) }

end CalculationService


namespace CalculationServiceEndpoints

/-- Lines `endpoints/calculations.py:117,158` build
`func.sum(TurbineHourlyGeneration.energy_exported)`, but
`models/daily_report.py` defines no `energy_exported` column on
`TurbineHourlyGeneration` (it was removed; hourly rows carry only
`energy_generated`).  Evaluating the attribute raises `AttributeError`,
modelled as an error. -/
def hourlyEnergyExportedAttr : Except Unit ℚ := Except.error ()

/-- Lines `endpoints/calculations.py:56-57,86-87` read
`power_plant.installed_capacity`; `models/power_plant.py` defines only
`total_capacity`, so the access raises `AttributeError`, modelled as an
error. -/
def installedCapacityAttr (_ : PowerPlant) : Except Unit ℚ := Except.error ()

/-- Model of `endpoints/calculations.py:93-139` — `_update_energy_totals`.  Totals are
first defaulted to `0.0`; if any hourly row exists for the report the
generated total is summed from hourly rows, but the exported sum reads the
nonexistent hourly `energy_exported` column and fails; otherwise both totals
are summed from the turbine daily stats. -/
def updateEnergyTotals (db : Db) (r : DailyReport) : Except Unit DailyReport := do
  let r := { r with energy_generated := some 0, total_energy_exported := some 0 }
  let hourly := db.hourly_records.filter (fun h => h.daily_report_id == r.id)
  if hourly.length > 0 then
    let gen := sumBy hourly (·.energy_generated)
    let exp ← hourlyEnergyExportedAttr
    pure { r with energy_generated := some gen, total_energy_exported := some exp }
  else
    let stats := db.turbine_stats.filter (fun s => s.daily_report_id == r.id)
    pure { r with
      energy_generated := some (sumBy stats (·.energy_generated))
      total_energy_exported := some (sumBy stats (·.energy_exported)) }

/-- The per-turbine generated sum of `endpoints/calculations.py:153-156`
(`scalar() or 0` defaults the empty aggregate to `0`). -/
def sumHourlyGenFor (db : Db) (rid tid : ℕ) : ℚ :=
  sumBy (db.hourly_records.filter
    (fun h => h.daily_report_id == rid && h.turbine_id == tid)) (·.energy_generated)

/-- Replace the first element satisfying `p` (SQLAlchemy `first()` then
mutate). -/
def updateFirst {α : Type} (l : List α) (p : α → Bool) (f : α → α) : List α :=
  match l with
  | [] => []
  | x :: xs => if p x then f x :: xs else x :: updateFirst xs p f

/-- Model of `endpoints/calculations.py:141-174` — `_update_turbine_stats_from_hourly`:
for every distinct turbine appearing in the report's daily stats, sum its
hourly rows and overwrite the daily-stat energy fields.  The exported sum
reads the nonexistent hourly `energy_exported` column, so the body fails on
the first turbine, before any daily-stat row is written. -/
def updateTurbineStatsFromHourly (db : Db) (rid : ℕ) : Except Unit Db := do
  let turbineIds :=
    ((db.turbine_stats.filter (fun s => s.daily_report_id == rid)).map
      (·.turbine_id)).eraseDups
  turbineIds.foldlM (fun (db : Db) tid => do
    let gen := sumHourlyGenFor db rid tid
    let exp ← hourlyEnergyExportedAttr
    pure { db with turbine_stats :=
      (updateFirst db.turbine_stats
        (fun s => s.daily_report_id == rid && s.turbine_id == tid)
        (fun s => { s with energy_generated := gen, energy_exported := exp })) }) db

end CalculationServiceEndpoints

/-- Payload item of `schemas/hourly_reading.py` — `HourlyReadingUpdate`. -/
structure HourlyReadingUpdate where
  turbine_id : ℕ
  hour : ℕ
  energy_generated : ℚ
deriving DecidableEq

/-- Payload item of `schemas/daily_report.py` — `TurbineStatsUpdate`: every
field optional. -/
structure TurbineStatsUpdate where
  turbine_id : ℕ
  operating_hours : Option ℚ
  startup_count : Option ℕ
  shutdown_count : Option ℕ
  trips : Option ℕ
  energy_generated : Option ℚ
  energy_exported : Option ℚ
deriving DecidableEq

/-- Payload of `schemas/daily_report.py` — `DailyReportUpdate`: every field
optional. -/
structure DailyReportUpdate where
  gas_loss : Option ℚ
  ncc_loss : Option ℚ
  internal_loss : Option ℚ
  gas_consumed : Option ℚ
  declaration_total : Option ℚ
  availability_capacity : Option ℚ
  turbine_stats : List TurbineStatsUpdate
deriving DecidableEq

/-- Model of `endpoints/hourly_readings.py:25-134` — `update_hourly_readings`: resolve
the report (404 if absent), and for each payload reading check the turbine
belongs to the report's plant (404 if not) and upsert the hourly row matched
by (report, turbine, hour), setting only `energy_generated`.  No
recalculation of the report follows (lines 128-130 state the totals are no
longer derived from hourly readings).  Permission and deadline checks and
audit columns are elided. -/
def update_hourly_readings (db : Db) (rid : ℕ)
    (readings : List HourlyReadingUpdate) : Except Unit Db := do
  match db.reports.find? (fun r => r.id == rid) with
  | none => Except.error ()
  | some report => do
    let recs ← readings.foldlM
      (fun (recs : List TurbineHourlyGeneration) reading => do
        match db.turbines.find? (fun t =>
            t.id == reading.turbine_id && t.power_plant_id == report.power_plant_id) with
        | none => Except.error ()
        | some _ =>
          let isMatch := fun (h : TurbineHourlyGeneration) =>
            h.daily_report_id == rid && h.turbine_id == reading.turbine_id &&
              h.hour == reading.hour
          if (recs.find? isMatch).isSome then
            pure (CalculationServiceEndpoints.updateFirst recs isMatch
              (fun h => { h with energy_generated := reading.energy_generated }))
          else
            pure (recs ++ [{ daily_report_id := rid, turbine_id := reading.turbine_id,
                             hour := reading.hour,
                             energy_generated := reading.energy_generated }]))
      db.hourly_records
    pure { db with hourly_records := recs }

/-- Model of `endpoints/daily_reports.py:228-262` — the per-turbine daily-stat upsert
inside `update_daily_report`: update only the provided fields of an existing
row, or create a new row defaulting missing fields to `0`. -/
def upsertTurbineStat (stats : List TurbineDailyStats) (rid : ℕ)
    (u : TurbineStatsUpdate) : List TurbineDailyStats :=
  let isMatch := fun (s : TurbineDailyStats) =>
    s.daily_report_id == rid && s.turbine_id == u.turbine_id
  if (stats.find? isMatch).isSome then
    CalculationServiceEndpoints.updateFirst stats isMatch (fun s =>
      { s with
        operating_hours := u.operating_hours.getD s.operating_hours
        startup_count := u.startup_count.getD s.startup_count
        shutdown_count := u.shutdown_count.getD s.shutdown_count
        trips := u.trips.getD s.trips
        energy_generated := u.energy_generated.getD s.energy_generated
        energy_exported := u.energy_exported.getD s.energy_exported })
  else
    stats ++ [{ daily_report_id := rid, turbine_id := u.turbine_id,
                operating_hours := u.operating_hours.getD 0,
                startup_count := u.startup_count.getD 0,
                shutdown_count := u.shutdown_count.getD 0,
                trips := u.trips.getD 0,
                energy_generated := u.energy_generated.getD 0,
                energy_exported := u.energy_exported.getD 0 }]

/-- Python `if report_in.x is not None: report.x = report_in.x` — overwrite a
nullable column with the payload value only when one was provided. -/
def applyOpt (new : Option ℚ) (old : Option ℚ) : Option ℚ :=
  match new with
  | some v => some v
  | none => old

/-- Model of `endpoints/daily_reports.py:142-280` — `update_daily_report`: resolve the
report (404 if absent), overwrite each provided raw field, upsert each
provided turbine stat (404 if a turbine is not in the report's plant), then
run `CalculationService.calculate_and_update_all_metrics` on the mutated
state.  Permission and deadline checks and audit columns are elided. -/
def update_daily_report (db : Db) (rid : ℕ) (u : DailyReportUpdate) :
    Except Unit Db := do
  match db.reports.find? (fun r => r.id == rid) with
  | none => Except.error ()
  | some report => do
    let report := { report with
      gas_loss := u.gas_loss.getD report.gas_loss
      ncc_loss := u.ncc_loss.getD report.ncc_loss
      internal_loss := u.internal_loss.getD report.internal_loss
      gas_consumed := u.gas_consumed.getD report.gas_consumed
      declaration_total := applyOpt u.declaration_total report.declaration_total
      availability_capacity := applyOpt u.availability_capacity report.availability_capacity }
    let stats ← u.turbine_stats.foldlM
      (fun (stats : List TurbineDailyStats) tu => do
        match db.turbines.find? (fun t =>
            t.id == tu.turbine_id && t.power_plant_id == report.power_plant_id) with
        | none => Except.error ()
        | some _ => pure (upsertTurbineStat stats rid tu))
      db.turbine_stats
    let db := { db with
      turbine_stats := stats
      reports := db.reports.map (fun x => if x.id == rid then report else x) }
    pure (CalculationService.calculate_and_update_all_metrics db rid)

/-- Division that signals a zero divisor instead of returning Python's
`DivisionByZero`-free junk value: used to check that the engine never
divides by zero. -/
def safeDiv (a b : ℚ) : Except Unit ℚ :=
  if b = 0 then Except.error () else Except.ok (a / b)

/-- A division `a/b*100` performed only under the guard
`truthy t ∧ b > 0`, with the division routed through `safeDiv`. -/
def guardedDivMul (t : Option ℚ) (b a : ℚ) (old : Option ℚ) : Except Unit (Option ℚ) :=
  if truthy t ∧ b > 0 then do
    let q ← safeDiv a b
    pure (some (q * 100))
  else pure old

/-- A division `a/b` performed only under the guard `truthy t ∧ b > 0`. -/
def guardedDivId (t : Option ℚ) (b a : ℚ) (old : Option ℚ) : Except Unit (Option ℚ) :=
  if truthy t ∧ b > 0 then do
    let q ← safeDiv a b
    pure (some q)
  else pure old

/-- A division `a/b` performed only under the guard `b > 0`. -/
def guardedDivPos (b a : ℚ) (old : Option ℚ) : Except Unit (Option ℚ) :=
  if b > 0 then do
    let q ← safeDiv a b
    pure (some q)
  else pure old

/-- The load-factor divisions `a/24/b*100` performed only under the
nonzero-truthiness guard `b ≠ 0 ∧ a ≠ 0`. -/
def guardedDivNe (b a : ℚ) (old : Option ℚ) : Except Unit (Option ℚ) :=
  if b ≠ 0 ∧ a ≠ 0 then do
    let q ← safeDiv a 24
    let q2 ← safeDiv q b
    pure (some (q2 * 100))
  else pure old

namespace CalculationService

/-- Variant of `calcServiceUpdate` with every division routed through `safeDiv`, so a
division by zero would surface as `Except.error`.  Each guarded step mirrors
the corresponding source statement; used to prove the engine performs no
division by zero. -/
def calcServiceUpdateChecked (plant : PowerPlant) (morning : Option MorningReading)
    (stats : List TurbineDailyStats) (r : DailyReport) : Except Unit DailyReport := do
  let totalGen := sumBy stats (·.energy_generated)
  let totalExp := sumBy stats (·.energy_exported)
  let decl := copyFromMorning (morning.map (·.declaration_total)) r.declaration_total
  let ac := copyFromMorning (morning.map (·.availability_capacity)) r.availability_capacity
  let af ← guardedDivMul ac plant.total_capacity (ac.getD 0) r.availability_factor
  let forecast := if truthy decl then some (decl.getD 0 * 24) else r.availability_forecast
  let dep ← guardedDivMul forecast (forecast.getD 0) totalGen r.dependability_index
  let avg ← safeDiv totalExp 24
  let gu ← guardedDivPos r.gas_consumed totalGen r.gas_utilization
  let heat ← guardedDivId gu (gu.getD 0) (43.65 * 1000 * 24 : ℚ) r.plant_heat_rate
  let th ← guardedDivMul heat (heat.getD 0) 3600 r.thermal_efficiency
  let lf ← guardedDivNe plant.total_capacity totalGen r.load_factor
  pure { r with
    energy_generated := some totalGen
    total_energy_exported := some totalExp
    energy_consumed := some (totalGen - totalExp)
    declaration_total := decl
    availability_capacity := ac
    availability_factor := af
    availability_forecast := forecast
    dependability_index := dep
    avg_energy_sent_out := some avg
    gas_utilization := gu
    plant_heat_rate := heat
    thermal_efficiency := th
    load_factor := lf }

end CalculationService

/-- A report row (id 1, plant 1, date 1) with zero raw inputs and all
nullable columns null — the state of a freshly created report that has not
been through the engine. -/
def blankReport : DailyReport where
  id := 1
  date := 1
  power_plant_id := 1
  gas_loss := 0
  ncc_loss := 0
  internal_loss := 0
  gas_consumed := 0
  declaration_total := none
  availability_capacity := none
  availability_factor := none
  plant_heat_rate := none
  thermal_efficiency := none
  energy_generated := none
  total_energy_exported := none
  energy_consumed := none
  availability_forecast := none
  dependability_index := none
  avg_energy_sent_out := none
  gas_utilization := none
  load_factor := none

/-- Plant 1 with 100 MW nameplate capacity. -/
def plant1 : PowerPlant := ⟨1, 100⟩

def turbine1 : Turbine := ⟨1, 1⟩

def turbine2 : Turbine := ⟨2, 1⟩

/-- Morning reading for plant 1, date 1: declaration 80 MW, availability
80 MW. -/
def morning1 : MorningReading := ⟨1, 1, 80, 80⟩

/-- A daily-stat row for report 1. -/
def statRow (tid : ℕ) (gen exp : ℚ) : TurbineDailyStats := ⟨1, tid, gen, exp, 24, 0, 0, 0⟩

/-- An hourly row for report 1. -/
def hourlyRow (tid hour : ℕ) (gen : ℚ) : TurbineHourlyGeneration := ⟨1, tid, hour, gen⟩

/-- A report exists but its plant does not. -/
def dbNoPlant : Db := ⟨[], [], [blankReport], [], [], []⟩

/-- Report 1 with a daily-stat row (5 gen / 7 exp) and one hourly row. -/
def dbHourly : Db := ⟨[plant1], [turbine1], [blankReport], [], [statRow 1 5 7], [hourlyRow 1 1 3]⟩

/-- Report 1 with a daily-stat row (5 gen / 7 exp) and no hourly rows. -/
def dbDailyOnly : Db := ⟨[plant1], [turbine1], [blankReport], [], [statRow 1 5 7], []⟩

/-- §8 edge-case scenario: turbine 1 has hourly rows (summing 50), turbine 2
has only an operator-entered daily-stat row of 30/30. -/
def dbC10 : Db := ⟨[plant1], [turbine1, turbine2], [blankReport], [], [statRow 2 30 30], [hourlyRow 1 1 50]⟩

/-- Report 1 whose stored totals (5/5) agree with its daily-stat row. -/
def report3 : DailyReport :=
  { blankReport with energy_generated := some 5, total_energy_exported := some 5 }

def db3 : Db := ⟨[plant1], [turbine1], [report3], [], [statRow 1 5 5], []⟩

/-- The state after pushing one hourly reading (turbine 1, hour 1, 7 MWh)
through the public hourly update path. -/
def db3' : Db := ((update_hourly_readings db3 1 [⟨1, 1, 7⟩]).toOption).getD db3

/-- An update payload that changes no raw field and no turbine stat. -/
def emptyUpdate : DailyReportUpdate := ⟨none, none, none, none, none, none, []⟩

/-- Baseline state for exercising both public update paths. -/
def dbW : Db := ⟨[plant1], [turbine1], [blankReport], [], [statRow 1 5 7], []⟩

def dbW1 : Db := ((update_daily_report dbW 1 emptyUpdate).toOption).getD dbW

def dbW2 : Db := ((update_hourly_readings dbW 1 [⟨1, 1, 7⟩]).toOption).getD dbW

def rW1 : DailyReport := (dbW1.reports.find? (fun x => x.id == 1)).getD blankReport

/-- Absorption of a repeated conditional assignment: re-running
`if c: x = v` on a state where it has already run changes nothing. -/
theorem ite_absorb {c : Prop} [Decidable c] (v old : Option ℚ) :
    (if c then v else (if c then v else old)) = if c then v else old := by
  by_cases h : c <;> simp [h]

theorem copyFromMorning_idem (mv v : Option ℚ) :
    CalculationService.copyFromMorning mv (CalculationService.copyFromMorning mv v) =
      CalculationService.copyFromMorning mv v := by
  unfold CalculationService.copyFromMorning
  by_cases h : truthy v
  · simp [h]
  · cases mv with
    | none => simp [h]
    | some x => by_cases h2 : truthy (some x) <;> simp [h, h2]

namespace CalculationService

theorem calc_declaration_total (p : PowerPlant) (m : Option MorningReading)
    (s : List TurbineDailyStats) (r : DailyReport) :
    (calcServiceUpdate p m s r).declaration_total =
      copyFromMorning (m.map (·.declaration_total)) r.declaration_total := rfl

theorem calc_availability_capacity (p : PowerPlant) (m : Option MorningReading)
    (s : List TurbineDailyStats) (r : DailyReport) :
    (calcServiceUpdate p m s r).availability_capacity =
      copyFromMorning (m.map (·.availability_capacity)) r.availability_capacity := rfl

theorem calc_energy_generated (p : PowerPlant) (m : Option MorningReading)
    (s : List TurbineDailyStats) (r : DailyReport) :
    (calcServiceUpdate p m s r).energy_generated =
      some (sumBy s (·.energy_generated)) := rfl

theorem calc_total_energy_exported (p : PowerPlant) (m : Option MorningReading)
    (s : List TurbineDailyStats) (r : DailyReport) :
    (calcServiceUpdate p m s r).total_energy_exported =
      some (sumBy s (·.energy_exported)) := rfl

theorem calc_energy_consumed (p : PowerPlant) (m : Option MorningReading)
    (s : List TurbineDailyStats) (r : DailyReport) :
    (calcServiceUpdate p m s r).energy_consumed =
      some (sumBy s (·.energy_generated) - sumBy s (·.energy_exported)) := rfl

theorem calc_avg_energy_sent_out (p : PowerPlant) (m : Option MorningReading)
    (s : List TurbineDailyStats) (r : DailyReport) :
    (calcServiceUpdate p m s r).avg_energy_sent_out =
      some (sumBy s (·.energy_exported) / 24) := rfl

theorem calc_availability_factor (p : PowerPlant) (m : Option MorningReading)
    (s : List TurbineDailyStats) (r : DailyReport) :
    (calcServiceUpdate p m s r).availability_factor =
      (if truthy (copyFromMorning (m.map (·.availability_capacity)) r.availability_capacity) ∧
          p.total_capacity > 0 then
        some ((copyFromMorning (m.map (·.availability_capacity))
          r.availability_capacity).getD 0 / p.total_capacity * 100)
      else r.availability_factor) := rfl

theorem calc_availability_forecast (p : PowerPlant) (m : Option MorningReading)
    (s : List TurbineDailyStats) (r : DailyReport) :
    (calcServiceUpdate p m s r).availability_forecast =
      (if truthy (copyFromMorning (m.map (·.declaration_total)) r.declaration_total) then
        some ((copyFromMorning (m.map (·.declaration_total))
          r.declaration_total).getD 0 * 24)
      else r.availability_forecast) := rfl

theorem calc_dependability_index (p : PowerPlant) (m : Option MorningReading)
    (s : List TurbineDailyStats) (r : DailyReport) :
    (calcServiceUpdate p m s r).dependability_index =
      (if truthy ((calcServiceUpdate p m s r).availability_forecast) ∧
          ((calcServiceUpdate p m s r).availability_forecast).getD 0 > 0 then
        some (sumBy s (·.energy_generated) /
          ((calcServiceUpdate p m s r).availability_forecast).getD 0 * 100)
      else r.dependability_index) := rfl

theorem calc_gas_utilization (p : PowerPlant) (m : Option MorningReading)
    (s : List TurbineDailyStats) (r : DailyReport) :
    (calcServiceUpdate p m s r).gas_utilization =
      (if r.gas_consumed > 0 then
        some (sumBy s (·.energy_generated) / r.gas_consumed)
      else r.gas_utilization) := rfl

theorem calc_plant_heat_rate (p : PowerPlant) (m : Option MorningReading)
    (s : List TurbineDailyStats) (r : DailyReport) :
    (calcServiceUpdate p m s r).plant_heat_rate =
      (if truthy ((calcServiceUpdate p m s r).gas_utilization) ∧
          ((calcServiceUpdate p m s r).gas_utilization).getD 0 > 0 then
        some ((43.65 * 1000 * 24 : ℚ) /
          ((calcServiceUpdate p m s r).gas_utilization).getD 0)
      else r.plant_heat_rate) := rfl

theorem calc_thermal_efficiency (p : PowerPlant) (m : Option MorningReading)
    (s : List TurbineDailyStats) (r : DailyReport) :
    (calcServiceUpdate p m s r).thermal_efficiency =
      (if truthy ((calcServiceUpdate p m s r).plant_heat_rate) ∧
          ((calcServiceUpdate p m s r).plant_heat_rate).getD 0 > 0 then
        some (3600 / ((calcServiceUpdate p m s r).plant_heat_rate).getD 0 * 100)
      else r.thermal_efficiency) := rfl

theorem calc_load_factor (p : PowerPlant) (m : Option MorningReading)
    (s : List TurbineDailyStats) (r : DailyReport) :
    (calcServiceUpdate p m s r).load_factor =
      (if p.total_capacity ≠ 0 ∧ sumBy s (·.energy_generated) ≠ 0 then
        some (sumBy s (·.energy_generated) / 24 / p.total_capacity * 100)
      else r.load_factor) := rfl

theorem calc_gas_consumed (p : PowerPlant) (m : Option MorningReading)
    (s : List TurbineDailyStats) (r : DailyReport) :
    (calcServiceUpdate p m s r).gas_consumed = r.gas_consumed := rfl

theorem calc_idem_declaration (p : PowerPlant) (m : Option MorningReading)
    (s : List TurbineDailyStats) (r : DailyReport) :
    (calcServiceUpdate p m s (calcServiceUpdate p m s r)).declaration_total =
      (calcServiceUpdate p m s r).declaration_total := by
  simp only [calc_declaration_total, copyFromMorning_idem]

theorem calc_idem_availability_capacity (p : PowerPlant) (m : Option MorningReading)
    (s : List TurbineDailyStats) (r : DailyReport) :
    (calcServiceUpdate p m s (calcServiceUpdate p m s r)).availability_capacity =
      (calcServiceUpdate p m s r).availability_capacity := by
  simp only [calc_availability_capacity, copyFromMorning_idem]

theorem calc_idem_availability_factor (p : PowerPlant) (m : Option MorningReading)
    (s : List TurbineDailyStats) (r : DailyReport) :
    (calcServiceUpdate p m s (calcServiceUpdate p m s r)).availability_factor =
      (calcServiceUpdate p m s r).availability_factor := by
  simp only [calc_availability_factor, calc_availability_capacity, copyFromMorning_idem]
  exact ite_absorb _ _

theorem calc_idem_availability_forecast (p : PowerPlant) (m : Option MorningReading)
    (s : List TurbineDailyStats) (r : DailyReport) :
    (calcServiceUpdate p m s (calcServiceUpdate p m s r)).availability_forecast =
      (calcServiceUpdate p m s r).availability_forecast := by
  simp only [calc_availability_forecast, calc_declaration_total, copyFromMorning_idem]
  exact ite_absorb _ _

theorem calc_idem_dependability_index (p : PowerPlant) (m : Option MorningReading)
    (s : List TurbineDailyStats) (r : DailyReport) :
    (calcServiceUpdate p m s (calcServiceUpdate p m s r)).dependability_index =
      (calcServiceUpdate p m s r).dependability_index := by
  rw [calc_dependability_index p m s (calcServiceUpdate p m s r),
    calc_idem_availability_forecast,
    calc_dependability_index p m s r]
  exact ite_absorb _ _

theorem calc_idem_gas_utilization (p : PowerPlant) (m : Option MorningReading)
    (s : List TurbineDailyStats) (r : DailyReport) :
    (calcServiceUpdate p m s (calcServiceUpdate p m s r)).gas_utilization =
      (calcServiceUpdate p m s r).gas_utilization := by
  rw [calc_gas_utilization p m s (calcServiceUpdate p m s r), calc_gas_consumed,
    calc_gas_utilization p m s r]
  exact ite_absorb _ _

theorem calc_idem_plant_heat_rate (p : PowerPlant) (m : Option MorningReading)
    (s : List TurbineDailyStats) (r : DailyReport) :
    (calcServiceUpdate p m s (calcServiceUpdate p m s r)).plant_heat_rate =
      (calcServiceUpdate p m s r).plant_heat_rate := by
  rw [calc_plant_heat_rate p m s (calcServiceUpdate p m s r), calc_idem_gas_utilization,
    calc_plant_heat_rate p m s r]
  exact ite_absorb _ _

theorem calc_idem_thermal_efficiency (p : PowerPlant) (m : Option MorningReading)
    (s : List TurbineDailyStats) (r : DailyReport) :
    (calcServiceUpdate p m s (calcServiceUpdate p m s r)).thermal_efficiency =
      (calcServiceUpdate p m s r).thermal_efficiency := by
  rw [calc_thermal_efficiency p m s (calcServiceUpdate p m s r), calc_idem_plant_heat_rate,
    calc_thermal_efficiency p m s r]
  exact ite_absorb _ _

theorem calc_idem_load_factor (p : PowerPlant) (m : Option MorningReading)
    (s : List TurbineDailyStats) (r : DailyReport) :
    (calcServiceUpdate p m s (calcServiceUpdate p m s r)).load_factor =
      (calcServiceUpdate p m s r).load_factor := by
  rw [calc_load_factor p m s (calcServiceUpdate p m s r), calc_load_factor p m s r]
  exact ite_absorb _ _

/-- C6 — the engine is idempotent: for a fixed snapshot of the plant
capacity, morning reading, turbine daily-stat rows and report, running the
reconcile-and-compute body of `calculate_and_update_all_metrics` twice
yields exactly the state reached by running it once (all eleven derived
fields, both energy totals, and the copied declaration columns agree). -/
theorem metric_engine_idempotent (p : PowerPlant) (m : Option MorningReading)
    (s : List TurbineDailyStats) (r : DailyReport) :
    calcServiceUpdate p m s (calcServiceUpdate p m s r) = calcServiceUpdate p m s r := by
  refine DailyReport.ext rfl rfl rfl rfl rfl rfl rfl ?_ ?_ ?_ ?_ ?_ rfl rfl rfl ?_ ?_ rfl ?_ ?_
  · exact calc_idem_declaration p m s r
  · exact calc_idem_availability_capacity p m s r
  · exact calc_idem_availability_factor p m s r
  · exact calc_idem_plant_heat_rate p m s r
  · exact calc_idem_thermal_efficiency p m s r
  · exact calc_idem_availability_forecast p m s r
  · exact calc_idem_dependability_index p m s r
  · exact calc_idem_gas_utilization p m s r
  · exact calc_idem_load_factor p m s r

end CalculationService

/-- C7 — if the report or its power plant cannot be resolved,
`calculate_and_update_all_metrics` performs no work and returns without
raising: the database state is returned unchanged, so no report field,
turbine-stat row or total is modified. -/
theorem engine_noop_when_unresolvable (db : Db) (rid : ℕ)
    (h : db.reports.find? (fun r => r.id == rid) = none ∨
      ∃ r, db.reports.find? (fun r => r.id == rid) = some r ∧
        db.plants.find? (fun p => p.id == r.power_plant_id) = none) :
    CalculationService.calculate_and_update_all_metrics db rid = db := by
  unfold CalculationService.calculate_and_update_all_metrics
  rcases h with h | ⟨r, h1, h2⟩
  · simp only [h]
  · simp only [h1, h2]

/-- Witness for C7: a database holding report 1 but not its plant is left
untouched by the engine. -/
theorem engine_noop_when_unresolvable_witness :
    dbNoPlant.reports.find? (fun r => r.id == 1) = some blankReport ∧
    dbNoPlant.plants.find? (fun p => p.id == blankReport.power_plant_id) = none ∧
    CalculationService.calculate_and_update_all_metrics dbNoPlant 1 = dbNoPlant :=
  ⟨by decide, by decide,
    engine_noop_when_unresolvable dbNoPlant 1 (Or.inr ⟨blankReport, by decide, by decide⟩)⟩

/-- C2 counterexample — the engine invoked by the API, run on a resolvable
report (report 1 of `dbDailyOnly`, plant capacity 100), leaves
`availability_factor` null because its precondition
(availability_capacity truthy) is unmet: the field is not assigned 0.0,
contradicting the claim that every derived field is non-null afterwards. -/
theorem engine_leaves_availability_factor_null :
    ((CalculationService.calculate_and_update_all_metrics dbDailyOnly 1).reports.find?
      (fun x => x.id == 1)).map (·.availability_factor) = some none := by decide

/-- C2 (amended) — after the invoked engine runs, `energy_generated`,
`total_energy_exported`, `energy_consumed` and `avg_energy_sent_out` are
unconditionally assigned (non-null); each of the seven remaining derived
fields is assigned exactly when its precondition holds and otherwise keeps
its previous value, so it can remain null. -/
theorem engine_conditional_assignment (p : PowerPlant) (m : Option MorningReading)
    (s : List TurbineDailyStats) (r : DailyReport) :
    ((CalculationService.calcServiceUpdate p m s r).energy_generated).isSome = true ∧
    ((CalculationService.calcServiceUpdate p m s r).total_energy_exported).isSome = true ∧
    ((CalculationService.calcServiceUpdate p m s r).energy_consumed).isSome = true ∧
    ((CalculationService.calcServiceUpdate p m s r).avg_energy_sent_out).isSome = true ∧
    ((CalculationService.calcServiceUpdate p m s r).availability_factor =
      if truthy (CalculationService.copyFromMorning (m.map (·.availability_capacity))
            r.availability_capacity) ∧ p.total_capacity > 0 then
        some ((CalculationService.copyFromMorning (m.map (·.availability_capacity))
          r.availability_capacity).getD 0 / p.total_capacity * 100)
      else r.availability_factor) ∧
    ((CalculationService.calcServiceUpdate p m s r).availability_forecast =
      if truthy (CalculationService.copyFromMorning (m.map (·.declaration_total))
            r.declaration_total) then
        some ((CalculationService.copyFromMorning (m.map (·.declaration_total))
          r.declaration_total).getD 0 * 24)
      else r.availability_forecast) ∧
    ((CalculationService.calcServiceUpdate p m s r).dependability_index =
      if truthy ((CalculationService.calcServiceUpdate p m s r).availability_forecast) ∧
          ((CalculationService.calcServiceUpdate p m s r).availability_forecast).getD 0 > 0 then
        some (sumBy s (·.energy_generated) /
          ((CalculationService.calcServiceUpdate p m s r).availability_forecast).getD 0 * 100)
      else r.dependability_index) ∧
    ((CalculationService.calcServiceUpdate p m s r).gas_utilization =
      if r.gas_consumed > 0 then
        some (sumBy s (·.energy_generated) / r.gas_consumed)
      else r.gas_utilization) ∧
    ((CalculationService.calcServiceUpdate p m s r).plant_heat_rate =
      if truthy ((CalculationService.calcServiceUpdate p m s r).gas_utilization) ∧
          ((CalculationService.calcServiceUpdate p m s r).gas_utilization).getD 0 > 0 then
        some ((43.65 * 1000 * 24 : ℚ) /
          ((CalculationService.calcServiceUpdate p m s r).gas_utilization).getD 0)
      else r.plant_heat_rate) ∧
    ((CalculationService.calcServiceUpdate p m s r).thermal_efficiency =
      if truthy ((CalculationService.calcServiceUpdate p m s r).plant_heat_rate) ∧
          ((CalculationService.calcServiceUpdate p m s r).plant_heat_rate).getD 0 > 0 then
        some (3600 / ((CalculationService.calcServiceUpdate p m s r).plant_heat_rate).getD 0 * 100)
      else r.thermal_efficiency) ∧
    ((CalculationService.calcServiceUpdate p m s r).load_factor =
      if p.total_capacity ≠ 0 ∧ sumBy s (·.energy_generated) ≠ 0 then
        some (sumBy s (·.energy_generated) / 24 / p.total_capacity * 100)
      else r.load_factor) :=
  ⟨rfl, rfl, rfl, rfl, CalculationService.calc_availability_factor p m s r,
    CalculationService.calc_availability_forecast p m s r,
    CalculationService.calc_dependability_index p m s r,
    CalculationService.calc_gas_utilization p m s r,
    CalculationService.calc_plant_heat_rate p m s r,
    CalculationService.calc_thermal_efficiency p m s r,
    CalculationService.calc_load_factor p m s r⟩

/-- C4 counterexample — on a report with gas_consumed = 10 MSCM and turbine
generation summing to 1000 MWh, the engine stores
plant_heat_rate = 43.65×1000×24 / (1000/10) = 10476, not the claimed
(10 × 35.314)/(1000/1000) = 353.14. -/
theorem heat_rate_uses_gas_utilization_variant :
    (CalculationService.calcServiceUpdate plant1 none [statRow 1 1000 800]
      { blankReport with gas_consumed := 10 }).plant_heat_rate = some 10476 ∧
    (10 : ℚ) * 35.314 / (1000 / 1000) = 35314 / 100 ∧
    (10476 : ℚ) ≠ 35314 / 100 := by
  refine ⟨?_, by norm_num, by norm_num⟩
  norm_num [CalculationService.calcServiceUpdate, CalculationService.copyFromMorning,
    sumBy, statRow, blankReport, plant1, truthy]

/-- C4 (amended) — for gas_consumed = 10 MSCM and energy_generated =
1000 MWh the engine computes gas_utilization = 100 MWh/MSCM,
plant_heat_rate = 43.65×1000×24/100 = 10476 and thermal_efficiency =
3600/10476×100 ≈ 34.36 % (strictly between 34.36 and 34.37), not 353.14
and ≈966.2 %. -/
theorem heat_rate_scenario_values :
    (CalculationService.calcServiceUpdate plant1 none [statRow 1 1000 800]
      { blankReport with gas_consumed := 10 }).gas_utilization = some 100 ∧
    (CalculationService.calcServiceUpdate plant1 none [statRow 1 1000 800]
      { blankReport with gas_consumed := 10 }).plant_heat_rate = some 10476 ∧
    (CalculationService.calcServiceUpdate plant1 none [statRow 1 1000 800]
      { blankReport with gas_consumed := 10 }).thermal_efficiency =
        some (3600 / 10476 * 100) ∧
    (34.36 : ℚ) < 3600 / 10476 * 100 ∧ (3600 / 10476 * 100 : ℚ) < 34.37 := by
  refine ⟨?_, ?_, ?_, by norm_num, by norm_num⟩ <;>
    norm_num [CalculationService.calcServiceUpdate, CalculationService.copyFromMorning,
      sumBy, statRow, blankReport, plant1, truthy]

/-- C5 counterexample — for plant capacity 100 > 0 and a report whose stats
sum to 2400 MWh generated / 1200 MWh exported, the engine stores
load_factor = ((2400/24)/100)×100 = 100, not the claimed
(1200/(100×24))×100 = 50: the implemented variant divides energy_generated,
not total_energy_exported, by capacity. -/
theorem load_factor_uses_generated_variant :
    (CalculationService.calcServiceUpdate plant1 none [statRow 1 2400 1200]
      blankReport).load_factor = some 100 ∧
    (1200 : ℚ) / (100 * 24) * 100 = 50 ∧
    (100 : ℚ) ≠ 50 := by
  refine ⟨?_, by norm_num, by norm_num⟩
  norm_num [CalculationService.calcServiceUpdate, CalculationService.copyFromMorning,
    sumBy, statRow, blankReport, plant1, truthy]

/-- C5 (amended) — the engine sets
load_factor = ((energy_generated/24)/plant_capacity)×100 whenever the plant
capacity and the generated total are both nonzero; otherwise load_factor
keeps its prior value (there is no 0.0 default for non-positive
capacity). -/
theorem load_factor_formula_amended (p : PowerPlant) (m : Option MorningReading)
    (s : List TurbineDailyStats) (r : DailyReport) :
    (CalculationService.calcServiceUpdate p m s r).load_factor =
      if p.total_capacity ≠ 0 ∧ sumBy s (·.energy_generated) ≠ 0 then
        some (sumBy s (·.energy_generated) / 24 / p.total_capacity * 100)
      else r.load_factor :=
  CalculationService.calc_load_factor p m s r

/-- C1 — code bug: when at least one hourly record exists, the reconcile
step `_update_energy_totals` reads the nonexistent
`TurbineHourlyGeneration.energy_exported` column and fails (AttributeError)
instead of taking exported energy from the daily-stat sums; with no hourly
records it does set both totals to the daily-stat sums (5 and 7 here). -/
theorem reconcile_hourly_exported_attribute_bug :
    CalculationServiceEndpoints.updateEnergyTotals dbHourly blankReport = Except.error () ∧
    CalculationServiceEndpoints.updateEnergyTotals dbDailyOnly blankReport =
      Except.ok { blankReport with
        energy_generated := some 5, total_energy_exported := some 7 } := by
  constructor
  · rfl
  · simp only [CalculationServiceEndpoints.updateEnergyTotals, dbDailyOnly, statRow,
      blankReport, sumBy]
    norm_num [DailyReport.mk.injEq]
    rfl

/-- C10 — code bug: in the §8 edge case (turbine 1 has hourly rows, turbine
2 has only a 30/30 daily-stat row) the per-turbine hourly sum that would
overwrite turbine 2 is the empty-sum default 0, but
`_update_turbine_stats_from_hourly` reads the nonexistent
`TurbineHourlyGeneration.energy_exported` column and fails before writing
any daily-stat row, so no overwrite (with 0 or otherwise) happens. -/
theorem sync_step_raises_before_any_write :
    CalculationServiceEndpoints.sumHourlyGenFor dbC10 1 2 = 0 ∧
    CalculationServiceEndpoints.updateTurbineStatsFromHourly dbC10 1 = Except.error () := by
  constructor
  · rfl
  · rfl

/-- C8 counterexample — for a plant with capacity −100 (nonzero but not
strictly positive) and 240 MWh generated, the engine performs the
load-factor division by the capacity and stores ((240/24)/(−100))×100 =
−10: the division by plant_capacity is reached under a mere nonzero check,
refuting the claim that every division is guarded by a strictly-positive
check on its divisor. -/
theorem load_factor_divides_by_negative_capacity :
    (CalculationService.calcServiceUpdate ⟨1, -100⟩ none [statRow 1 240 0]
      blankReport).load_factor = some (-10) ∧
    ¬ ((-100 : ℚ) > 0) := by
  refine ⟨?_, by norm_num⟩
  norm_num [CalculationService.calcServiceUpdate, CalculationService.copyFromMorning,
    sumBy, statRow, blankReport, truthy]

theorem ok_bind {α β : Type} (a : α) (f : α → Except Unit β) :
    (Except.ok a >>= f) = f a := rfl

theorem safeDiv_ok (a b : ℚ) (h : b ≠ 0) : safeDiv a b = Except.ok (a / b) := by
  simp [safeDiv, h]

theorem guardedDivMul_ok (t : Option ℚ) (b a : ℚ) (old : Option ℚ) :
    guardedDivMul t b a old =
      Except.ok (if truthy t ∧ b > 0 then some (a / b * 100) else old) := by
  unfold guardedDivMul
  by_cases hc : truthy t ∧ b > 0
  · simp [hc, safeDiv, hc.2.ne', bind, Except.bind]
    rfl
  · simp [hc]
    rfl

theorem guardedDivId_ok (t : Option ℚ) (b a : ℚ) (old : Option ℚ) :
    guardedDivId t b a old =
      Except.ok (if truthy t ∧ b > 0 then some (a / b) else old) := by
  unfold guardedDivId
  by_cases hc : truthy t ∧ b > 0
  · simp [hc, safeDiv, hc.2.ne', bind, Except.bind]
    rfl
  · simp [hc]
    rfl

theorem guardedDivPos_ok (b a : ℚ) (old : Option ℚ) :
    guardedDivPos b a old = Except.ok (if b > 0 then some (a / b) else old) := by
  unfold guardedDivPos
  by_cases hc : b > 0
  · simp [hc, safeDiv, hc.ne', bind, Except.bind]
    rfl
  · simp [hc]
    rfl

theorem guardedDivNe_ok (b a : ℚ) (old : Option ℚ) :
    guardedDivNe b a old =
      Except.ok (if b ≠ 0 ∧ a ≠ 0 then some (a / 24 / b * 100) else old) := by
  unfold guardedDivNe
  by_cases hc : b ≠ 0 ∧ a ≠ 0
  · have h24 : (24 : ℚ) ≠ 0 := by norm_num
    simp [hc, safeDiv, hc.1, h24, bind, Except.bind]
    rfl
  · simp [hc]
    rfl

/-- C8 (amended) — no division by zero is ever performed: routing every
division of the engine through `safeDiv` (which signals a zero divisor)
always succeeds and returns the engine's own result.  The divisors
availability_forecast, gas_consumed, gas_utilization and plant_heat_rate are
guarded by strictly-positive checks, as is plant_capacity in the
availability_factor formula, but plant_capacity in the load_factor formula
is guarded only by a nonzero (truthiness) check. -/
theorem engine_no_division_by_zero (p : PowerPlant) (m : Option MorningReading)
    (s : List TurbineDailyStats) (r : DailyReport) :
    CalculationService.calcServiceUpdateChecked p m s r =
      Except.ok (CalculationService.calcServiceUpdate p m s r) := by
  simp only [CalculationService.calcServiceUpdateChecked, guardedDivMul_ok,
    guardedDivId_ok, guardedDivPos_ok, guardedDivNe_ok,
    safeDiv_ok _ 24 (by norm_num : (24 : ℚ) ≠ 0), ok_bind]
  rfl

theorem copyFromMorning_applies (mv : ℚ) (v : Option ℚ) (h : ¬ truthy v) :
    CalculationService.copyFromMorning (some mv) v = some mv := by
  simp [CalculationService.copyFromMorning, h]

/-- C9 — hidden input: when the report's declaration_total (respectively
availability_capacity) is falsy (null or zero) and a morning reading exists
for the same plant and date, the engine copies the morning value onto the
report before computing availability_factor and availability_forecast (and
through the forecast, dependability_index); hence the derived fields are not
a function of the report's raw fields and plant capacity alone, as the final
conjunct shows on two states differing only in the morning reading. -/
theorem morning_reading_hidden_input (p : PowerPlant) (mm : MorningReading)
    (s : List TurbineDailyStats) (r : DailyReport)
    (h1 : ¬ truthy r.declaration_total) (h2 : ¬ truthy r.availability_capacity) :
    (CalculationService.calcServiceUpdate p (some mm) s r).declaration_total =
      some mm.declaration_total ∧
    (CalculationService.calcServiceUpdate p (some mm) s r).availability_capacity =
      some mm.availability_capacity ∧
    ((CalculationService.calcServiceUpdate p (some mm) s r).availability_factor =
      if truthy (some mm.availability_capacity) ∧ p.total_capacity > 0 then
        some (mm.availability_capacity / p.total_capacity * 100)
      else r.availability_factor) ∧
    ((CalculationService.calcServiceUpdate p (some mm) s r).availability_forecast =
      if truthy (some mm.declaration_total) then some (mm.declaration_total * 24)
      else r.availability_forecast) ∧
    (CalculationService.calcServiceUpdate plant1 (some morning1) [] blankReport).availability_factor ≠
      (CalculationService.calcServiceUpdate plant1 none [] blankReport).availability_factor := by
  have hd : CalculationService.copyFromMorning ((some mm).map (·.declaration_total))
      r.declaration_total = some mm.declaration_total := by
    simpa using copyFromMorning_applies mm.declaration_total r.declaration_total h1
  have ha : CalculationService.copyFromMorning ((some mm).map (·.availability_capacity))
      r.availability_capacity = some mm.availability_capacity := by
    simpa using copyFromMorning_applies mm.availability_capacity r.availability_capacity h2
  refine ⟨?_, ?_, ?_, ?_, ?_⟩
  · rw [CalculationService.calc_declaration_total, hd]
  · rw [CalculationService.calc_availability_capacity, ha]
  · rw [CalculationService.calc_availability_factor, ha]
    simp
  · rw [CalculationService.calc_availability_forecast, hd]
    simp
  · norm_num [CalculationService.calc_availability_factor,
      CalculationService.copyFromMorning, truthy, plant1, morning1, blankReport]
    exact Option.some_ne_none _

/-- Witness for C9: on a blank report (falsy declaration columns) with
morning reading `morning1` present, the copied declaration is `morning1`'s
value. -/
theorem morning_reading_hidden_input_witness :
    (¬ truthy blankReport.declaration_total) ∧
    (¬ truthy blankReport.availability_capacity) ∧
    (CalculationService.calcServiceUpdate plant1 (some morning1) []
      blankReport).declaration_total = some morning1.declaration_total :=
  ⟨by decide, by decide,
    (morning_reading_hidden_input plant1 morning1 [] blankReport
      (by decide) (by decide)).1⟩

/-- C3 counterexample — pushing an hourly reading of 7 MWh through the
public hourly update path succeeds, after which an hourly record exists and
the hourly sum is 7, yet the report's stored `energy_generated` is still
its prior daily-stat value 5: no reconcile-then-compute ran with the
mutation. -/
theorem hourly_update_path_skips_recompute :
    (db3'.reports.find? (fun x => x.id == 1)).map (·.energy_generated) = some (some 5) ∧
    sumBy (db3'.hourly_records.filter (fun h => h.daily_report_id == 1))
      (·.energy_generated) = 7 ∧
    (5 : ℚ) ≠ 7 := by
  refine ⟨by decide, ?_, by norm_num⟩
  have h : db3'.hourly_records.filter (fun h => h.daily_report_id == 1) =
      [hourlyRow 1 1 7] := by decide
  rw [h]
  norm_num [sumBy, hourlyRow]

theorem except_bind_ok {α β : Type} (x : Except Unit α) (f : α → Except Unit β) (b : β) :
    (x >>= f) = Except.ok b ↔ ∃ a, x = Except.ok a ∧ f a = Except.ok b := by
  cases x <;> simp [bind, Except.bind]

theorem find?_map_update (l : List DailyReport) (rid : ℕ) (r r' : DailyReport)
    (h : l.find? (fun x => x.id == rid) = some r) (hid : (r'.id == rid) = true) :
    (l.map (fun x => if x.id == rid then r' else x)).find? (fun x => x.id == rid) =
      some r' := by
  induction l with
  | nil => simp at h
  | cons a as ih =>
    rw [List.map_cons]
    by_cases ha : (a.id == rid) = true
    · rw [if_pos ha]
      exact List.find?_cons_of_pos _ hid
    · rw [if_neg ha]
      have h1 : List.find? (fun x => x.id == rid) (a :: as) =
          List.find? (fun x => x.id == rid) as := List.find?_cons_of_neg _ ha
      rw [h1] at h
      have h2 : List.find? (fun x => x.id == rid)
          (a :: List.map (fun x => if x.id == rid then r' else x) as) =
          List.find? (fun x => x.id == rid)
            (List.map (fun x => if x.id == rid then r' else x) as) :=
        List.find?_cons_of_neg _ ha
      rw [h2]
      exact ih h

theorem calc_run_reports (plants : List PowerPlant) (turbines : List Turbine)
    (reports : List DailyReport) (mrs : List MorningReading)
    (stats : List TurbineDailyStats) (hrs : List TurbineHourlyGeneration)
    (rid : ℕ) (rep : DailyReport) (p : PowerPlant)
    (h1 : reports.find? (fun x => x.id == rid) = some rep)
    (h2 : plants.find? (fun q => q.id == rep.power_plant_id) = some p) :
    (CalculationService.calculate_and_update_all_metrics
        ⟨plants, turbines, reports, mrs, stats, hrs⟩ rid).reports =
      reports.map (fun x => if x.id == rid then
        CalculationService.calcServiceUpdate p
          (mrs.find? (fun mr => mr.date == rep.date && mr.power_plant_id == rep.power_plant_id))
          (stats.filter (fun st => st.daily_report_id == rid)) rep
      else x) := by
  unfold CalculationService.calculate_and_update_all_metrics
  simp only [h1, h2]

theorem calc_run_stats (plants : List PowerPlant) (turbines : List Turbine)
    (reports : List DailyReport) (mrs : List MorningReading)
    (stats : List TurbineDailyStats) (hrs : List TurbineHourlyGeneration)
    (rid : ℕ) (rep : DailyReport) (p : PowerPlant)
    (h1 : reports.find? (fun x => x.id == rid) = some rep)
    (h2 : plants.find? (fun q => q.id == rep.power_plant_id) = some p) :
    (CalculationService.calculate_and_update_all_metrics
        ⟨plants, turbines, reports, mrs, stats, hrs⟩ rid).turbine_stats = stats := by
  unfold CalculationService.calculate_and_update_all_metrics
  simp only [h1, h2]

/-- C3 (amended) — the two public mutation paths do not keep the totals in
sync with the hourly records: after `update_daily_report` the invoked
engine recomputes both report totals as the sums over the (post-mutation)
turbine daily-stat rows, regardless of hourly records; and
`update_hourly_readings` triggers no recomputation at all, leaving every
report row — in particular both energy totals — exactly as before the
mutation. -/
theorem update_paths_totals (db : Db) (rid : ℕ) (u : DailyReportUpdate)
    (readings : List HourlyReadingUpdate) (db1 db2 : Db) (r1 : DailyReport)
    (hd : update_daily_report db rid u = Except.ok db1)
    (hh : update_hourly_readings db rid readings = Except.ok db2)
    (hp : ∀ rep, db.reports.find? (fun x => x.id == rid) = some rep →
      (db.plants.find? (fun q => q.id == rep.power_plant_id)).isSome = true)
    (hr : db1.reports.find? (fun x => x.id == rid) = some r1) :
    (r1.energy_generated =
        some (sumBy (db1.turbine_stats.filter (fun st => st.daily_report_id == rid))
          (·.energy_generated)) ∧
      r1.total_energy_exported =
        some (sumBy (db1.turbine_stats.filter (fun st => st.daily_report_id == rid))
          (·.energy_exported))) ∧
    db2.reports = db.reports := by
  constructor
  · unfold update_daily_report at hd
    cases hfind : db.reports.find? (fun r => r.id == rid) with
    | none => rw [hfind] at hd; exact absurd hd (by simp)
    | some rep =>
      simp only [hfind] at hd
      rw [except_bind_ok] at hd
      obtain ⟨stats2, -, hpure⟩ := hd
      set rep' : DailyReport := { rep with
        gas_loss := u.gas_loss.getD rep.gas_loss,
        ncc_loss := u.ncc_loss.getD rep.ncc_loss,
        internal_loss := u.internal_loss.getD rep.internal_loss,
        gas_consumed := u.gas_consumed.getD rep.gas_consumed,
        declaration_total := applyOpt u.declaration_total rep.declaration_total,
        availability_capacity :=
          applyOpt u.availability_capacity rep.availability_capacity } with hrepdef
      have hid := List.find?_some hfind
      have hid' : (rep'.id == rid) = true := hid
      have hfind2 : (db.reports.map (fun x => if x.id == rid then rep' else x)).find?
          (fun x => x.id == rid) = some rep' :=
        find?_map_update db.reports rid rep rep' hfind hid'
      have hpp := hp rep hfind
      obtain ⟨p, hp2⟩ := Option.isSome_iff_exists.mp hpp
      have hp2' : db.plants.find? (fun q => q.id == rep'.power_plant_id) = some p := hp2
      have hpure2 : Except.ok (CalculationService.calculate_and_update_all_metrics
          ⟨db.plants, db.turbines,
            db.reports.map (fun x => if x.id == rid then rep' else x),
            db.morning_readings, stats2, db.hourly_records⟩ rid) =
          Except.ok db1 := hpure
      injection hpure2 with hpure3
      subst hpure3
      rw [calc_run_reports db.plants db.turbines
        (db.reports.map (fun x => if x.id == rid then rep' else x))
        db.morning_readings stats2 db.hourly_records rid rep' p hfind2 hp2'] at hr
      have hidc : ((CalculationService.calcServiceUpdate p
          (db.morning_readings.find?
            (fun mr => mr.date == rep'.date && mr.power_plant_id == rep'.power_plant_id))
          (stats2.filter (fun st => st.daily_report_id == rid)) rep').id == rid) = true := hid
      have hfind3 := find?_map_update
        (db.reports.map (fun x => if x.id == rid then rep' else x)) rid rep'
        (CalculationService.calcServiceUpdate p
          (db.morning_readings.find?
            (fun mr => mr.date == rep'.date && mr.power_plant_id == rep'.power_plant_id))
          (stats2.filter (fun st => st.daily_report_id == rid)) rep')
        hfind2 hidc
      rw [hfind3] at hr
      injection hr with hr1
      subst hr1
      rw [calc_run_stats db.plants db.turbines
        (db.reports.map (fun x => if x.id == rid then rep' else x))
        db.morning_readings stats2 db.hourly_records rid rep' p hfind2 hp2']
      constructor
      · exact CalculationService.calc_energy_generated _ _ _ _
      · exact CalculationService.calc_total_energy_exported _ _ _ _
  · unfold update_hourly_readings at hh
    cases hfind : db.reports.find? (fun r => r.id == rid) with
    | none => rw [hfind] at hh; exact absurd hh (by simp)
    | some rep =>
      simp only [hfind] at hh
      rw [except_bind_ok] at hh
      obtain ⟨recs, -, hpure⟩ := hh
      have hpure2 : Except.ok ({ db with hourly_records := recs } : Db) =
          Except.ok db2 := hpure
      injection hpure2 with hpure3
      rw [← hpure3]

/-- Witness for C3 (amended): both update paths run on `dbW`; the daily path
leaves totals equal to the daily-stat sums, the hourly path leaves the
report rows untouched. -/
theorem update_paths_totals_witness :
    update_daily_report dbW 1 emptyUpdate = Except.ok dbW1 ∧
    update_hourly_readings dbW 1 [⟨1, 1, 7⟩] = Except.ok dbW2 ∧
    ((rW1.energy_generated =
        some (sumBy (dbW1.turbine_stats.filter (fun st => st.daily_report_id == 1))
          (·.energy_generated)) ∧
      rW1.total_energy_exported =
        some (sumBy (dbW1.turbine_stats.filter (fun st => st.daily_report_id == 1))
          (·.energy_exported))) ∧
      dbW2.reports = dbW.reports) := by
  refine ⟨rfl, rfl, ?_⟩
  refine update_paths_totals dbW 1 emptyUpdate [⟨1, 1, 7⟩] dbW1 dbW2 rW1 rfl rfl ?_ rfl
  intro rep h
  have hb : dbW.reports.find? (fun x => x.id == 1) = some blankReport := rfl
  rw [hb] at h
  injection h with h2
  subst h2
  rfl

end NDPHC
